import Mathlib

/-! Verification of the SWAN spawner orchestration core
(`SwanSpawner/swanspawner/swanspawner.py`).

The Python class `SwanSpawner` is shallowly embedded: its mutable
dictionaries (`self.env`, `extra_host_config`, `extra_create_kwargs`)
become explicit state values, the filesystem (`os.path.exists`, file
reads) and the OS socket/randomness oracles become function-valued
inputs, subprocess spawns and metric emissions become entries of an
explicit event trace, and Python exceptions become an `Except` result.
-/

set_option autoImplicit false

namespace Swan

/-! Model of the Python-dict environment.

`self.env` / the environments returned by `get_env` are Python dicts of
strings.  A Python dict keeps insertion order, updates the value in place
when a key is already present, and appends new keys at the end; keys are
unique.  An association list with the operations below models this
exactly. -/

abbrev Env := List (String × String)

/-- Lookup `d[k]` (as an `Option`). -/
def envGet : Env → String → Option String
  | [], _ => none
  | p :: tl, k => if p.1 == k then some p.2 else envGet tl k

/-- Assignment `d[k] = v`: update in place when the key exists, else append. -/
def envSet : Env → String → String → Env
  | [], k, v => [(k, v)]
  | p :: tl, k, v => if p.1 == k then (k, v) :: tl else p :: envSet tl k v

/-- Python `d.pop(k, None)`: drop the entry for `k` when present. -/
def envPop : Env → String → Env
  | [], _ => []
  | p :: tl, k => if p.1 == k then envPop tl k else p :: envPop tl k

/-- Python `d.update(...)` with a list of key/value pairs applied in order. -/
def envSetMany (e : Env) (ps : List (String × String)) : Env :=
  ps.foldl (fun a kv => envSet a kv.1 kv.2) e

theorem envGet_set_self (e : Env) (k v : String) :
    envGet (envSet e k v) k = some v := by
  induction e with
  | nil => simp [envGet, envSet]
  | cons hd tl ih =>
    by_cases h : hd.1 == k
    · simp [envGet, envSet, h]
    · simp [envGet, envSet, h, ih]

theorem envGet_set_ne (e : Env) (k v k' : String) (h : k' ≠ k) :
    envGet (envSet e k v) k' = envGet e k' := by
  have hbne : (k == k') = false := by
    simp only [beq_eq_false_iff_ne]
    exact fun hk => h hk.symm
  induction e with
  | nil => simp [envGet, envSet, hbne]
  | cons hd tl ih =>
    by_cases hk : hd.1 == k
    · have h1 : (hd.1 == k') = false := by
        simp only [beq_eq_false_iff_ne]
        intro hkk
        exact h (hkk.symm.trans (beq_iff_eq.mp hk))
      simp [envGet, envSet, hk, hbne, h1]
    · by_cases hk' : hd.1 == k'
      · simp [envGet, envSet, hk, hk']
      · simp [envGet, envSet, hk, hk', ih]

theorem envGet_pop_self (e : Env) (k : String) :
    envGet (envPop e k) k = none := by
  induction e with
  | nil => simp [envGet, envPop]
  | cons hd tl ih =>
    by_cases h : hd.1 == k
    · simp [envPop, h, ih]
    · simp [envGet, envPop, h, ih]

theorem envGet_pop_ne (e : Env) (k k' : String) (h : k' ≠ k) :
    envGet (envPop e k) k' = envGet e k' := by
  induction e with
  | nil => simp [envGet, envPop]
  | cons hd tl ih =>
    by_cases hk : hd.1 == k
    · have h1 : (hd.1 == k') = false := by
        simp only [beq_eq_false_iff_ne]
        intro hkk
        exact h (hkk.symm.trans (beq_iff_eq.mp hk))
      simp [envGet, envPop, hk, h1, ih]
    · by_cases hk' : hd.1 == k'
      · simp [envGet, envPop, hk, hk']
      · simp [envGet, envPop, hk, hk', ih]

theorem envGet_setMany_ne (ps : List (String × String)) (e : Env) (k : String)
    (h : ∀ kv ∈ ps, kv.1 ≠ k) :
    envGet (envSetMany e ps) k = envGet e k := by
  induction ps generalizing e with
  | nil => rfl
  | cons hd tl ih =>
    unfold envSetMany
    simp only [List.foldl_cons]
    have step : envGet (envSetMany (envSet e hd.1 hd.2) tl) k
        = envGet (envSet e hd.1 hd.2) k :=
      ih (envSet e hd.1 hd.2) (fun kv hkv => h kv (List.mem_cons_of_mem hd hkv))
    calc envGet (List.foldl (fun a kv => envSet a kv.1 kv.2) (envSet e hd.1 hd.2) tl) k
        = envGet (envSet e hd.1 hd.2) k := step
      _ = envGet e k :=
        envGet_set_ne e hd.1 hd.2 k (Ne.symm (h hd (List.mem_cons_self hd tl)))

/-! Python exceptions and observable events.

Every `raise` site of the source raises `ValueError`, `RuntimeError` or —
at `return startup`, where the name `startup` is bound nowhere — a
`NameError`.  The observable side effects of the spawner (subprocess
spawns via `subprocess.call`, metric emissions) are recorded as a trace
of events. -/

inductive PyErr where
  | valueError (msg : String)
  | runtimeError (msg : String)
  | nameError (name : String)
deriving DecidableEq

/-- The Python class name of a raised exception (used by
`_send_start_exception_metric` as the metric discriminator). -/
def pyClassName : PyErr → String
  | .valueError _ => "ValueError"
  | .runtimeError _ => "RuntimeError"
  | .nameError _ => "NameError"

inductive Event where
  /-- Call `subprocess.call(['sudo', self.auth_script, username])` (home auth). -/
  | subprocAuth (script user : String)
  /-- Call `subprocess.call(['sudo', self.init_k8s_user, username])`. -/
  | subprocInitK8s (script user : String)
  /-- Call `subprocess.call(['sudo', self.hadoop_auth_script, cluster, username])`. -/
  | subprocHadoopAuth (script cluster user : String)
  /-- Emission by `_send_user_metrics` of the spawn-form metrics. -/
  | userMetrics
  /-- Metric from `_send_start_exception_metric` with the exception class name
  (`"None"` on the success path). -/
  | startExcMetric (cls : String)
  /-- Metric from `_send_exit_metric` recording the given cleaned exit-code value. -/
  | exitMetric (v : String)
deriving DecidableEq

/-- True exactly for the two cluster-authentication subprocesses
(the init-user helper and the Hadoop-auth helper). -/
def isClusterAuthSubproc : Event → Bool
  | .subprocInitK8s _ _ => true
  | .subprocHadoopAuth _ _ _ => true
  | _ => false

/-! Model of TelemetryEmitter `_send_exit_metric`.

`_send_exit_metric(exit_return_code)` cleans the exit-status string: an
all-digits string is used as is, otherwise `re.search('ExitCode=(\d+)')`
extracts the digits, and a string matching neither raises internally —
the surrounding `try`/`except` logs and swallows every internal error, so
the operation is total towards its caller. -/

/-- Python `str.isdigit()` on ASCII content: non-empty and all digits. -/
def pyIsDigit (s : String) : Bool :=
  !s.toList.isEmpty && s.toList.all Char.isDigit

/-- Maximal digit run at the front of a character list (the greedy
capture group `(\d+)`). -/
def digitRun : List Char → List Char
  | [] => []
  | c :: cs => if c.isDigit then c :: digitRun cs else []

/-- Leftmost match of the regex `ExitCode=(\d+)`: at each position, if the
text starts with `ExitCode=` followed by at least one digit, capture the
maximal digit run, else advance one character. -/
def findExitCode : List Char → Option (List Char)
  | [] => none
  | c :: cs =>
    if "ExitCode=".toList.isPrefixOf (c :: cs) then
      let d := digitRun ((c :: cs).drop 9)
      if d.isEmpty then findExitCode cs else some d
    else findExitCode cs

/-- Python `re.search('ExitCode=(\d+)', s)`, returning `group(1)`. -/
def searchExitCode (s : String) : Option String :=
  (findExitCode s.toList).map (fun ds => String.mk ds)

/-- The body of `_send_exit_metric` inside its `try`: the cleaned metric
value, or the internal exception message. -/
def exitMetricBody (s : String) : Except String String :=
  if pyIsDigit s then .ok s
  else
    match searchExitCode s with
    | some d => .ok d
    | none => .error "unknown exit code format for this Spawner"

/-- Model of `_send_exit_metric`: `none` means nothing was recorded (metrics
disabled, or an internal error that was caught and logged).  The function
is total: no input makes it raise to its caller. -/
def sendExitMetric (metricsOn : Bool) (s : String) : Option String :=
  if metricsOn then
    match exitMetricBody s with
    | .ok v => some v
    | .error _ => none
  else none

/-! Model of SessionLifecycleController `stop`.

`stop` first delegates to `super().stop(now)` (outcome supplied here as
an input: either a returned value or a raised exception), then calls
`_send_exit_metric("0")` on the delegated-return path and returns the
delegated result unchanged. -/

def stop {α : Type} (metricsOn : Bool) (delegated : Except PyErr α) :
    List Event × Except PyErr α :=
  match delegated with
  | .error e => ([], .error e)
  | .ok r =>
    (match sendExitMetric metricsOn "0" with
     | some v => [Event.exitMetric v]
     | none => [],
     .ok r)

/-! Model of PortReservationService `get_reserved_port`.

`get_reserved_port(start, end, n_tries=10)` loops `for i in range(n_tries)`:
draw `port = random.randint(start, end)`; raise if `port` appears as a
local address in `psutil.net_connections()`; otherwise bind a reusable
socket to `('127.0.0.1', port)`, listen, connect a second socket, accept,
and return the bound port (binding a nonzero port yields that same port as
`sockname[1]`).  The bare `except` clause swallows the failure and retries
unless `i == n_tries - 1`, in which case it re-raises.  Falling off the
loop (only possible when `n_tries = 0`) returns Python `None`.

The OS is an oracle: `draw i` is the random draw of iteration `i`
(`randint` guarantees it lies in `[start, end]` — a hypothesis of the
theorems), `inUse i p` says the connection table of iteration `i` shows
port `p`, and `sockOk i p` says the bind/listen/connect/accept sequence of
iteration `i` succeeds on port `p`. -/

structure PortOracle where
  draw : Nat → Nat
  inUse : Nat → Nat → Bool
  sockOk : Nat → Nat → Bool

inductive PortError where
  /-- Exception reporting that the drawn port is already in use. -/
  | portInUse (port : Nat)
  /-- An OS error from the socket operations. -/
  | sockFailure
deriving DecidableEq

/-- Loop of `get_reserved_port`, structurally recursive over the list of
remaining iteration indices (`for i in range(n_tries)`).  The bare
`except` re-raises only at the last index (`i == n_tries - 1`); falling
off the loop end — reachable only with `n_tries = 0` — models Python
returning `None`, hence `Except.ok none`. -/
def reservedPortLoop (o : PortOracle) (nTries : Nat) :
    List Nat → Except PortError (Option Nat)
  | [] => .ok none
  | i :: rest =>
    let port := o.draw i
    if o.inUse i port then
      if i = nTries - 1 then .error (.portInUse port)
      else reservedPortLoop o nTries rest
    else if o.sockOk i port then .ok (some port)
    else
      if i = nTries - 1 then .error .sockFailure
      else reservedPortLoop o nTries rest

/-- Model of `SwanSpawner.get_reserved_port(start, end, n_tries)`. -/
def get_reserved_port (o : PortOracle) (rangeStart rangeEnd nTries : Nat) :
    Except PortError (Option Nat) :=
  reservedPortLoop o nTries (List.range nTries)

theorem reservedPortLoop_ok_mem (o : PortOracle) (nTries : Nat) :
    ∀ idxs p, reservedPortLoop o nTries idxs = .ok (some p) → ∃ j, p = o.draw j := by
  intro idxs
  induction idxs with
  | nil =>
    intro p hp
    simp [reservedPortLoop] at hp
  | cons i rest ih =>
    intro p hp
    unfold reservedPortLoop at hp
    by_cases hu : o.inUse i (o.draw i)
    · simp only [if_pos hu] at hp
      by_cases hl : i = nTries - 1
      · simp [hl] at hp
      · exact ih p (by simpa [hl] using hp)
    · simp only [if_neg hu] at hp
      by_cases hs : o.sockOk i (o.draw i)
      · simp only [if_pos hs, Except.ok.injEq, Option.some.injEq] at hp
        exact ⟨i, hp.symm⟩
      · simp only [if_neg hs] at hp
        by_cases hl : i = nTries - 1
        · simp [hl] at hp
        · exact ih p (by simpa [hl] using hp)

/-! Model of `options_from_form`.

The form submission supplies one string per field; the `spark-cluster`
field may be absent, defaulting to `'none'`.  The submitted core count and
memory value are accepted only when members of the configured
`available_cores` / `available_memory` lists, else replaced by the first
entry of the respective list; the memory value gets a literal `'G'`
appended in both branches.  `int(...)` is modeled by `String.toInt?` (it
raises, here an error result, on a non-numeric string) and an empty
available list makes `available_cores[0]` raise an `IndexError`-like
error. -/

structure FormData where
  lcgRel : String
  platform : String
  scriptenv : String
  ncores : String
  memory : String
  sparkCluster : Option String

structure FormConfig where
  available_cores : List String
  available_memory : List String

structure Options where
  lcgRel : String
  platform : String
  scriptenv : String
  cluster : String
  ncores : Int
  memory : String
deriving DecidableEq

/-- Value of a non-empty all-digit character list. -/
def digitsVal (cs : List Char) : Nat :=
  cs.foldl (fun a c => a * 10 + (c.toNat - 48)) 0

/-- Parse a non-empty all-digit character list. -/
def parseDigits (cs : List Char) : Option Nat :=
  if !cs.isEmpty && cs.all Char.isDigit then some (digitsVal cs) else none

/-- Python `int(s)` on the plain decimal strings this code feeds it
(an optional sign followed by digits; anything else raises). -/
def pyInt (s : String) : Option Int :=
  match s.toList with
  | '-' :: rest => (parseDigits rest).map (fun n => -(n : Int))
  | '+' :: rest => (parseDigits rest).map (fun n => (n : Int))
  | cs => (parseDigits cs).map (fun n => (n : Int))

/-- Model of `SwanSpawner.options_from_form`; also returns the
`self.offload` flag the method assigns (`cluster != 'none'`). -/
def options_from_form (cfg : FormConfig) (fd : FormData) :
    Except PyErr (Options × Bool) := do
  let cluster := fd.sparkCluster.getD "none"
  let ncores ←
    if fd.ncores ∈ cfg.available_cores then
      match pyInt fd.ncores with
      | some n => pure n
      | none => throw (.valueError "invalid literal for int()")
    else
      match cfg.available_cores with
      | [] => throw (.valueError "list index out of range")
      | c0 :: _ =>
        match pyInt c0 with
        | some n => pure n
        | none => throw (.valueError "invalid literal for int()")
  let memory ←
    if fd.memory ∈ cfg.available_memory then
      pure (fd.memory ++ "G")
    else
      match cfg.available_memory with
      | [] => throw (.valueError "list index out of range")
      | m0 :: _ => pure (m0 ++ "G")
  pure (⟨fd.lcgRel, fd.platform, fd.scriptenv, cluster, ncores, memory⟩,
        cluster != "none")

/-! Model of the user-facing error messages raised by `start`.

The triple-quoted messages of the source carry surrounding indentation
and newlines; that whitespace is elided here, the content is kept
verbatim.  The NXCALS message is assembled around its request-access
anchor text so that the presence of the remediation link is explicit. -/

def ssbMsg : String :=
  "Could not initialize software stack, please <a href=\"https://cern.ch/ssb\" target=\"_blank\">check service status</a> or <a href=\"https://cern.service-now.com/service-portal/function.do?name=swan\" target=\"_blank\">report an issue</a>"

def platformMsg : String :=
  "Configuration not available: please select other <b>Software stack</b> and <b>Platform</b>."

def cloudUnsupportedMsg : String :=
  "Configuration unsupported: only <b>Software stack: Bleeding Edge Python2/Python3</b> is supported for Cloud Containers"

def cloudConnMsg : String :=
  "Problem connecting to Cloud Containers cluster. Please <a href=\"https://cern.service-now.com/service-portal/function.do?name=swan\" target=\"_blank\">report an issue</a>"

def nxcalsMsgPre : String :=
  "Access to the NXCALS cluster is not granted. Please <a href=\"https://wikis.cern.ch/display/NXCALS/Data+Access+User+Guide#DataAccessUserGuide-nxcals_access\" target=\"_blank\">"

def nxcalsMsg : String :=
  nxcalsMsgPre ++ "request access" ++ "</a>"

def yarnUnsupportedMsg : String :=
  "Configuration unsupported: only <b>Software stack: Bleeding Edge</b> is supported for Cloud Containers"

def sparkPortsMsg : String :=
  "Error while allocating ports for Spark. Please try again."

/-! Model of the `start` coroutine and its credential-provisioning block.

Configuration traits and per-session values are explicit inputs;
`a.fs p` models `os.path.exists(p)` and `a.readFile p` models reading
file `p` (`open(p).read()`).  Subprocess calls appear in the event trace;
their exit status is ignored by the source (failures surface only through
the later file-existence checks), so no outcome is modeled for them. -/

/-- Python `needle in hay` on strings, as character lists. -/
def containsSub (needle : List Char) : List Char → Bool
  | [] => needle.isEmpty
  | c :: tl => needle.isPrefixOf (c :: tl) || containsSub needle tl

structure StartConfig where
  local_home : Bool
  auth_script : String
  lcg_view_path : String
  init_k8s_user : String
  hadoop_auth_script : String
  metrics_on : Bool
  /-- Whether `hasattr(self, 'extra_host_config')` (Docker backend). -/
  hasDocker : Bool

structure StartArgs where
  username : String
  lcg_rel : String
  platform : String
  cluster : String
  n_cores : Int
  memory : String
  /-- Flag `self.offload` assigned by `options_from_form`. -/
  offload : Bool
  fs : String → Bool
  readFile : String → String
  /-- Dict `self.env` before the call. -/
  env : Env

/-- Resource-limit fields written near the end of `start`. -/
structure Limits where
  cpu_period : Option Int
  cpu_quota : Option Int
  cpu_limit : Option Int
  mem_limit : Option String
deriving DecidableEq

def Limits.init : Limits := ⟨none, none, none, none⟩

structure CredOutcome where
  events : List Event
  env : Env
  result : Except PyErr Unit

/-- Model of the `if self.offload:` block of `start` (cluster policy gate,
stale-credential clearing, identity/authorization subprocesses, token
materialization). -/
def credentialPhase (cfg : StartConfig) (a : StartArgs) (env : Env) : CredOutcome :=
  if a.cluster == "k8s" && !containsSub "dev".toList a.lcg_rel.toList then
    ⟨[], env, .error (.valueError cloudUnsupportedMsg)⟩
  else
    let hhp := "/spark/" ++ a.username
    let hcp := "/spark"
    let env1 :=
      envPop (envPop (envPop env "WEBHDFS_TOKEN") "HADOOP_TOKEN_FILE_LOCATION") "KUBECONFIG"
    let branch : List Event × Env × Except PyErr Unit :=
      if a.cluster == "k8s" then
        let ev := [Event.subprocInitK8s cfg.init_k8s_user a.username]
        if a.fs (hhp ++ "/k8s-user.config") then
          let env2 := envSet env1 "KUBECONFIG" (hcp ++ "/k8s-user.config")
          let ev2 := ev ++ [Event.subprocHadoopAuth cfg.hadoop_auth_script "analytix" a.username]
          (ev2, envSet env2 "KRB5CCNAME" (hcp ++ "/krb5cc"), .ok ())
        else
          (ev, env1, .error (.runtimeError cloudConnMsg))
      else
        ([Event.subprocHadoopAuth cfg.hadoop_auth_script a.cluster a.username],
         envSet env1 "KRB5CCNAME" "/tmp/krb5cc", .ok ())
    match branch with
    | (ev, envB, .error e) => ⟨ev, envB, .error e⟩
    | (ev, envB, .ok _) =>
      if a.fs (hhp ++ "/hadoop.toks") && a.fs (hhp ++ "/webhdfs.toks") then
        ⟨ev,
         envSet (envSet envB "HADOOP_TOKEN_FILE_LOCATION" (hcp ++ "/hadoop.toks"))
           "WEBHDFS_TOKEN" (a.readFile (hhp ++ "/webhdfs.toks")),
         .ok ()⟩
      else if a.cluster == "nxcals" then
        ⟨ev, envB, .error (.valueError nxcalsMsg)⟩
      else if a.cluster == "k8s" then
        ⟨ev, envB, .ok ()⟩
      else
        ⟨ev, envB, .error (.valueError yarnUnsupportedMsg)⟩

structure StartOutcome where
  trace : List Event
  env : Env
  limits : Limits
  result : Except PyErr Unit

/-- The `except BaseException` handler of `start`: emit the failure metric
tagged with the exception class, then re-raise. -/
def startFail (cfg : StartConfig) (tr : List Event) (env : Env) (lim : Limits)
    (e : PyErr) : StartOutcome :=
  ⟨tr ++ (if cfg.metrics_on then [Event.startExcMetric (pyClassName e)] else []),
   env, lim, .error e⟩

/-- Model of `SwanSpawner.start`.  Note the source ends its `try` block
with `return startup` where no binding for `startup` exists anywhere in
the module, so the success path raises a `NameError` which the handler
tags and re-raises. -/
def start (cfg : StartConfig) (a : StartArgs) : StartOutcome :=
  let ev0 : List Event :=
    if !cfg.local_home && cfg.auth_script != "" then
      [Event.subprocAuth cfg.auth_script a.username]
    else []
  if !(a.fs cfg.lcg_view_path) then
    startFail cfg ev0 a.env Limits.init (.valueError ssbMsg)
  else if !(a.fs (cfg.lcg_view_path ++ "/" ++ a.lcg_rel ++ "/" ++ a.platform)) then
    startFail cfg ev0 a.env Limits.init (.valueError platformMsg)
  else
    let cred := if a.offload then credentialPhase cfg a a.env else ⟨[], a.env, .ok ()⟩
    match cred.result with
    | .error e => startFail cfg (ev0 ++ cred.events) cred.env Limits.init e
    | .ok _ =>
      let lim : Limits :=
        if cfg.hasDocker then
          ⟨some 100000, some (100000 * a.n_cores), none, some a.memory⟩
        else
          ⟨none, none, some a.n_cores, some a.memory⟩
      let ev2 : List Event :=
        (if cfg.metrics_on then [Event.userMetrics] else [])
          ++ (if cfg.metrics_on then [Event.startExcMetric "None"] else [])
      startFail cfg (ev0 ++ cred.events ++ ev2) cred.env lim (.nameError "startup")

/-! Model of EnvironmentComposer `get_env`.

`get_env` builds the environment dict from the inherited `super().get_env()`
mapping, the user options, host identity and static configuration; on a
Docker backend it additionally clears and rebuilds the port-binding state
(`extra_host_config['port_bindings']`, `extra_create_kwargs['ports']`)
and, when offload is active, draws the reserved Spark ports.  The outcome
of the k-th `get_reserved_port` call within one invocation is supplied by
the `alloc` oracle; a failing reservation is logged and re-raised as
`RuntimeError`. -/

inductive Binding where
  /-- Value `(self.host_ip,)` bound under the primary session port. -/
  | hostIp (ip : String)
  /-- Value `reserved_port` bound 1:1 under a reserved port. -/
  | samePort (p : Nat)
deriving DecidableEq

/-- The Docker-specific mutable state touched by `get_env`:
`extra_host_config['port_bindings']` and `extra_create_kwargs['ports']`. -/
structure DockerState where
  port_bindings : List (Nat × Binding)
  ports : List Nat
deriving DecidableEq

structure GetEnvInputs where
  /-- Mapping returned by `super().get_env()`. -/
  baseEnv : Env
  username : String
  /-- Numeric uid from `pwd.getpwnam(username).pw_uid`. -/
  userid : Nat
  local_home : Bool
  eos_path_prefix : String
  lcg_view_path : String
  /-- Selected options (`self.user_options[...]`). -/
  lcg_rel : String
  platform : String
  scriptenv : String
  memoryOpt : String
  cluster : String
  /-- Hub callback values (`self.user.server.cookie_name` etc.). -/
  cookie_name : String
  base_url : String
  hub_base_url : String
  hub_api_url : String
  extra_env : Env
  hasDocker : Bool
  use_internal_ip : Bool
  port : Nat
  host_ip : String
  offload : Bool
  /-- Value of `os.uname().nodename`. -/
  nodename : String
  k8s_config_script : String
  yarn_config_script : String
  /-- Count `spark_session_num_ports * spark_max_sessions`. -/
  numPorts : Nat
  /-- Outcome of the k-th `get_reserved_port` call of this invocation. -/
  alloc : Nat → Except Unit Nat

structure GetEnvResult where
  env : Env
  docker : DockerState
  /-- Number of `get_reserved_port` invocations performed. -/
  allocCalls : Nat

/-- The reserved-port loop: one `get_reserved_port` call per required
port, aborting with the user-facing `RuntimeError` on the first failure. -/
def allocPorts (alloc : Nat → Except Unit Nat) : Nat → Nat → Except PyErr (List Nat)
  | _, 0 => .ok []
  | k, n + 1 =>
    match alloc k with
    | .error _ => .error (.runtimeError sparkPortsMsg)
    | .ok p =>
      match allocPorts alloc (k + 1) n with
      | .error e => .error e
      | .ok ps => .ok (p :: ps)

/-- Model of `SwanSpawner.get_env`, with the prior Docker port state `s`
(which the method clears before rebuilding). -/
def get_env (inp : GetEnvInputs) (s : DockerState) : Except PyErr GetEnvResult :=
  let homepath :=
    if inp.local_home then "/scratch/" ++ inp.username
    else inp.eos_path_prefix ++ "/" ++ inp.username.take 1 ++ "/" ++ inp.username
  let env0 := envSetMany inp.baseEnv
    [("ROOT_LCG_VIEW_NAME", inp.lcg_rel),
     ("ROOT_LCG_VIEW_PLATFORM", inp.platform),
     ("USER_ENV_SCRIPT", inp.scriptenv),
     ("ROOT_LCG_VIEW_PATH", inp.lcg_view_path),
     ("USER", inp.username),
     ("USER_ID", toString inp.userid),
     ("HOME", homepath),
     ("JPY_USER", inp.username),
     ("JPY_COOKIE_NAME", inp.cookie_name),
     ("JPY_BASE_URL", inp.base_url),
     ("JPY_HUB_PREFIX", inp.hub_base_url),
     ("JPY_HUB_API_URL", inp.hub_api_url)]
  let env1 := envSetMany env0 inp.extra_env
  if inp.hasDocker then
    let s1 : DockerState := { port_bindings := [], ports := [] }
    let s2 : DockerState :=
      if !inp.use_internal_ip then
        { s1 with port_bindings := s1.port_bindings ++ [(inp.port, Binding.hostIp inp.host_ip)] }
      else s1
    if inp.offload then
      let env2 := envSetMany env1
        [("SPARK_CLUSTER_NAME", inp.cluster),
         ("SPARK_USER", inp.username),
         ("SERVER_HOSTNAME", inp.nodename),
         ("MAX_MEMORY", inp.memoryOpt),
         ("SPARK_CONFIG_SCRIPT",
          if inp.cluster == "k8s" then inp.k8s_config_script else inp.yarn_config_script)]
      match allocPorts inp.alloc 0 inp.numPorts with
      | .error e => .error e
      | .ok ports =>
        .ok ⟨envSet env2 "SPARK_PORTS" (String.intercalate "," (ports.map toString)),
             { s2 with
               port_bindings := s2.port_bindings ++ ports.map (fun p => (p, Binding.samePort p)),
               ports := s2.ports ++ ports },
             inp.numPorts⟩
    else
      .ok ⟨env1, s2, 0⟩
  else
    .ok ⟨env1, s, 0⟩

/-! Claim theorems. -/

/-- C9: the exit-metric operation records `137` for `"ExitCode=137"` and
`0` for `"0"`; a string matching neither the all-digits form nor the
`ExitCode=<digits>` pattern (such as `"garbage"`) raises only internally
(the body errors) and is swallowed — nothing is recorded and, the embedded
operation being total with every internal error mapped to `none`, no input
string makes it raise to its caller. -/
theorem C9_exit_metric_parsing :
    sendExitMetric true "ExitCode=137" = some "137"
    ∧ sendExitMetric true "0" = some "0"
    ∧ sendExitMetric true "garbage" = none
    ∧ exitMetricBody "garbage" = .error "unknown exit code format for this Spawner"
    ∧ ∀ s msg, exitMetricBody s = .error msg → sendExitMetric true s = none := by
  refine ⟨rfl, rfl, rfl, rfl, ?_⟩
  intro s msg h
  unfold sendExitMetric
  simp [h]

/-- C9 witness: the internal-error clause applied at `"garbage"`. -/
theorem C9_exit_metric_parsing_witness :
    sendExitMetric true "garbage" = none :=
  C9_exit_metric_parsing.2.2.2.2 "garbage"
    "unknown exit code format for this Spawner" rfl

/-- C8: whatever value the delegated backend stop returns, `stop`
afterwards emits an exit metric recording code `0` and passes the
delegated result through unchanged (metrics enabled). -/
theorem C8_stop_emits_zero (α : Type) (r : α) :
    stop true (.ok r) = ([Event.exitMetric "0"], .ok r) :=
  rfl

/-- C8 witness: `stop` on a concrete delegated result. -/
theorem C8_stop_emits_zero_witness :
    stop true (.ok (0 : Nat)) = ([Event.exitMetric "0"], .ok 0) :=
  C8_stop_emits_zero Nat 0

/-- C3: whenever the random draws respect `randint`'s guarantee of lying
in `[lo, hi]`, any port value returned by `get_reserved_port lo hi` lies
in `[lo, hi]`; every other outcome of the call is a raised error (or, with
zero attempts, Python `None`) — never a value outside the range.  With
`lo = hi = 5001` the returned port is therefore exactly `5001`. -/
theorem C3_reserved_port_in_range (o : PortOracle) (lo hi nTries p : Nat)
    (hdraw : ∀ i, lo ≤ o.draw i ∧ o.draw i ≤ hi)
    (hok : get_reserved_port o lo hi nTries = .ok (some p)) :
    lo ≤ p ∧ p ≤ hi := by
  unfold get_reserved_port at hok
  obtain ⟨j, hj⟩ := reservedPortLoop_ok_mem o nTries (List.range nTries) p hok
  exact hj ▸ hdraw j

/-- Constant oracle for the single-value range `[5001, 5001]`: every draw
is 5001, no port shows in the connection table, the socket steps succeed. -/
def constOracle : PortOracle :=
  ⟨fun _ => 5001, fun _ _ => false, fun _ _ => true⟩

/-- C3 witness: on the single-value range `5001..5001` the call returns
`5001`, and the theorem instantiated there bounds it by `5001` on both
sides. -/
theorem C3_reserved_port_in_range_witness :
    get_reserved_port constOracle 5001 5001 10 = .ok (some 5001)
    ∧ (5001 ≤ 5001 ∧ 5001 ≤ 5001) :=
  ⟨rfl,
   C3_reserved_port_in_range constOracle 5001 5001 10 5001
     (fun _ => ⟨Nat.le_refl _, Nat.le_refl _⟩) rfl⟩

/-- C10: the accepted options silently clamp the submitted core count and
memory value to the configured lists — a submitted value that is not a
member is replaced by the first available option — and the accepted
memory value carries the literal `G` suffix in both branches.  (The
hypotheses supply non-empty option lists and parseable numerals, without
which the source itself raises.) -/
theorem C10_options_clamped (cfg : FormConfig) (fd : FormData)
    (nc n0 : Int) (c0 m0 : String) (cs ms : List String)
    (hc : cfg.available_cores = c0 :: cs) (hm : cfg.available_memory = m0 :: ms)
    (hnc : pyInt fd.ncores = some nc) (hn0 : pyInt c0 = some n0) :
    options_from_form cfg fd = .ok
      (⟨fd.lcgRel, fd.platform, fd.scriptenv, fd.sparkCluster.getD "none",
        if fd.ncores ∈ cfg.available_cores then nc else n0,
        (if fd.memory ∈ cfg.available_memory then fd.memory else m0) ++ "G"⟩,
       fd.sparkCluster.getD "none" != "none") := by
  simp only [options_from_form, hc, hm, hnc, hn0]
  by_cases h1 : fd.ncores = c0 ∨ fd.ncores ∈ cs
    <;> by_cases h2 : fd.memory = m0 ∨ fd.memory ∈ ms
    <;> simp only [List.mem_cons, h1, h2, if_true, if_false, ite_true, ite_false]
    <;> rfl

/-- C10 witness: submitted cores `"7"` is not in `["1", "2"]` and memory
`"16"` is not in `["8"]`, so both are clamped to the first option and the
memory gets the `G` suffix. -/
theorem C10_options_clamped_witness :
    options_from_form ⟨["1", "2"], ["8"]⟩ ⟨"LCG_96", "x86_64", "", "7", "16", none⟩
      = .ok (⟨"LCG_96", "x86_64", "", "none", 1, "8G"⟩, false)
    ∧ ((if ("7" : String) ∈ ["1", "2"] then (7 : Int) else 1) = 1
        ∧ (if ("16" : String) ∈ ["8"] then "16" else "8") ++ "G" = "8G") := by
  refine ⟨?_, by decide, by decide⟩
  have h := C10_options_clamped ⟨["1", "2"], ["8"]⟩
    ⟨"LCG_96", "x86_64", "", "7", "16", none⟩ 7 1 "1" "8" ["2"] [] rfl rfl rfl rfl
  simpa using h

/-- C6: the environment composer is deterministic on identical inputs —
the environment mapping produced by `get_env` (including the comma-joined
`SPARK_PORTS` entry when offload is active) does not depend on the
mutable Docker port state left by any earlier invocation, because the
method clears that state first.  Hence two successive invocations with
the same `SessionRequest` values, credentials and reserved-port outcomes
yield identical environment mappings. -/
theorem C6_get_env_deterministic (inp : GetEnvInputs) (s1 s2 : DockerState) :
    (get_env inp s1).map GetEnvResult.env = (get_env inp s2).map GetEnvResult.env := by
  unfold get_env
  by_cases hd : inp.hasDocker
  · simp only [if_pos hd]
  · simp only [if_neg hd]
    rfl

/-- C6 witness: a concrete invocation evaluated from two different prior
Docker port states. -/
theorem C6_get_env_deterministic_witness :
    (get_env
        ⟨[], "alice", 1000, false, "/eos/user", "/cvmfs/sft.cern.ch/lcg/views",
         "LCG-dev3", "x86_64", "", "8G", "k8s", "ck", "/base", "/hub", "/hub/api",
         [], true, false, 8888, "0.0.0.0", true, "node1",
         "/cvmfs/sft.cern.ch/lcg/etc/hadoop-confext/k8s-setconf.sh",
         "/cvmfs/sft.cern.ch/lcg/etc/hadoop-confext/hadoop-setconf.sh",
         3, fun k => .ok (5001 + k)⟩
        ⟨[], []⟩).map GetEnvResult.env
    = (get_env
        ⟨[], "alice", 1000, false, "/eos/user", "/cvmfs/sft.cern.ch/lcg/views",
         "LCG-dev3", "x86_64", "", "8G", "k8s", "ck", "/base", "/hub", "/hub/api",
         [], true, false, 8888, "0.0.0.0", true, "node1",
         "/cvmfs/sft.cern.ch/lcg/etc/hadoop-confext/k8s-setconf.sh",
         "/cvmfs/sft.cern.ch/lcg/etc/hadoop-confext/hadoop-setconf.sh",
         3, fun k => .ok (5001 + k)⟩
        ⟨[(4444, Binding.samePort 4444)], [4444]⟩).map GetEnvResult.env :=
  C6_get_env_deterministic _ ⟨[], []⟩ ⟨[(4444, Binding.samePort 4444)], [4444]⟩

/-- The cluster-related environment keys of §4.3. -/
def sparkKeys : List String :=
  ["SPARK_CLUSTER_NAME", "SPARK_USER", "SERVER_HOSTNAME", "MAX_MEMORY",
   "SPARK_CONFIG_SCRIPT", "SPARK_PORTS"]

/-- C7: when the selected cluster is `'none'` (so `options_from_form` set
`offload = (cluster != 'none') = false`), `get_env` succeeds, performs no
port reservation at all, and — provided the inherited base environment
and the configured extra variables do not themselves carry them — the
composed environment contains none of the cluster-related entries. -/
theorem C7_no_cluster_entries (inp : GetEnvInputs) (s : DockerState)
    (hcl : inp.cluster = "none")
    (hoff : inp.offload = (inp.cluster != "none"))
    (hb : ∀ k ∈ sparkKeys, envGet inp.baseEnv k = none)
    (hx : ∀ kv ∈ inp.extra_env, kv.1 ∉ sparkKeys) :
    ∃ r, get_env inp s = .ok r
      ∧ r.allocCalls = 0
      ∧ ∀ k ∈ sparkKeys, envGet r.env k = none := by
  have hoff' : inp.offload = false := by
    rw [hoff, hcl]
    rfl
  have henv : ∀ k ∈ sparkKeys,
      envGet (envSetMany (envSetMany inp.baseEnv
        [("ROOT_LCG_VIEW_NAME", inp.lcg_rel),
         ("ROOT_LCG_VIEW_PLATFORM", inp.platform),
         ("USER_ENV_SCRIPT", inp.scriptenv),
         ("ROOT_LCG_VIEW_PATH", inp.lcg_view_path),
         ("USER", inp.username),
         ("USER_ID", toString inp.userid),
         ("HOME",
          if inp.local_home then "/scratch/" ++ inp.username
          else inp.eos_path_prefix ++ "/" ++ inp.username.take 1 ++ "/" ++ inp.username),
         ("JPY_USER", inp.username),
         ("JPY_COOKIE_NAME", inp.cookie_name),
         ("JPY_BASE_URL", inp.base_url),
         ("JPY_HUB_PREFIX", inp.hub_base_url),
         ("JPY_HUB_API_URL", inp.hub_api_url)]) inp.extra_env) k = none := by
    intro k hk
    rw [envGet_setMany_ne _ _ _ (fun kv hkv hq => hx kv hkv (hq ▸ hk))]
    rw [envGet_setMany_ne]
    · exact hb k hk
    · intro kv hkv
      simp only [List.mem_cons, List.not_mem_nil, or_false] at hkv
      fin_cases hk <;>
        rcases hkv with rfl | rfl | rfl | rfl | rfl | rfl | rfl | rfl | rfl | rfl | rfl | rfl
        <;> simp
  unfold get_env
  by_cases hd : inp.hasDocker
  · simp only [if_pos hd, hoff', Bool.false_eq_true, if_false]
    exact ⟨_, rfl, rfl, henv⟩
  · simp only [if_neg hd]
    exact ⟨_, rfl, rfl, henv⟩

/-- C7 witness: a concrete `cluster = 'none'` session. -/
theorem C7_no_cluster_entries_witness :
    ∃ r, get_env
        ⟨[("PATH", "/usr/bin")], "alice", 1000, false, "/eos/user",
         "/cvmfs/sft.cern.ch/lcg/views", "LCG-dev3", "x86_64", "", "8G", "none",
         "ck", "/base", "/hub", "/hub/api", [("SWAN_EXTRA", "1")], true, false,
         8888, "0.0.0.0", false, "node1",
         "/cvmfs/sft.cern.ch/lcg/etc/hadoop-confext/k8s-setconf.sh",
         "/cvmfs/sft.cern.ch/lcg/etc/hadoop-confext/hadoop-setconf.sh",
         3, fun _ => .error ()⟩
        ⟨[], []⟩ = .ok r
      ∧ r.allocCalls = 0
      ∧ ∀ k ∈ sparkKeys, envGet r.env k = none :=
  C7_no_cluster_entries _ ⟨[], []⟩ rfl rfl (by decide) (by decide)

/-- C2: a start with offload requested that reaches token materialization
(stack paths valid) on a non-Kubernetes cluster whose per-user token files
are both absent raises: the user-facing access-denied `ValueError` —
whose message carries the request-access link text — when the cluster is
`'nxcals'`, and the unsupported-configuration `ValueError` for any other
non-Kubernetes cluster. -/
theorem C2_token_materialization_errors (cfg : StartConfig) (a : StartArgs)
    (hoff : a.offload = true) (hk : a.cluster ≠ "k8s")
    (hv : a.fs cfg.lcg_view_path = true)
    (hp : a.fs (cfg.lcg_view_path ++ "/" ++ a.lcg_rel ++ "/" ++ a.platform) = true)
    (ht1 : a.fs ("/spark/" ++ a.username ++ "/hadoop.toks") = false)
    (_ht2 : a.fs ("/spark/" ++ a.username ++ "/webhdfs.toks") = false) :
    (start cfg a).result =
      .error (.valueError (if a.cluster = "nxcals" then nxcalsMsg else yarnUnsupportedMsg))
    ∧ ∃ pre post, nxcalsMsg = pre ++ "request access" ++ post := by
  refine ⟨?_, ⟨nxcalsMsgPre, "</a>", rfl⟩⟩
  have hkb : (a.cluster == "k8s") = false := beq_eq_false_iff_ne.mpr hk
  unfold start credentialPhase
  by_cases hnx : a.cluster = "nxcals"
  · simp [hv, hp, hoff, hkb, ht1, hnx, startFail]
  · have hnxb : (a.cluster == "nxcals") = false := beq_eq_false_iff_ne.mpr hnx
    simp [hv, hp, hoff, hkb, ht1, hnx, hnxb, startFail]

/-- C2 witness: the NXCALS case at a concrete input. -/
theorem C2_token_materialization_errors_witness :
    (start ⟨false, "/srv/auth.sh", "/views", "/srv/initk8s", "/srv/hadoopauth", true, true⟩
        ⟨"alice", "LCG_96", "x86_64", "nxcals", 2, "8G", true,
         (fun p => !(p == "/spark/alice/hadoop.toks" || p == "/spark/alice/webhdfs.toks")),
         fun _ => "tok", []⟩).result
      = .error (.valueError (if "nxcals" = "nxcals" then nxcalsMsg else yarnUnsupportedMsg)) :=
  (C2_token_materialization_errors
    ⟨false, "/srv/auth.sh", "/views", "/srv/initk8s", "/srv/hadoopauth", true, true⟩
    ⟨"alice", "LCG_96", "x86_64", "nxcals", 2, "8G", true,
     (fun p => !(p == "/spark/alice/hadoop.toks" || p == "/spark/alice/webhdfs.toks")),
     fun _ => "tok", []⟩
    rfl (by decide) rfl rfl rfl rfl).1

/-- C4: a start with offload to `'k8s'` whose selected release has no
`dev` release-family marker raises the unsupported-configuration
`ValueError` of the policy gate, and its whole trace contains neither the
init-user helper nor the Hadoop-auth helper subprocess — the gate fires
before any cluster-authentication subprocess is spawned. -/
theorem C4_policy_gate_fail_fast (cfg : StartConfig) (a : StartArgs)
    (hoff : a.offload = true) (hk : a.cluster = "k8s")
    (hdev : containsSub "dev".toList a.lcg_rel.toList = false)
    (hv : a.fs cfg.lcg_view_path = true)
    (hp : a.fs (cfg.lcg_view_path ++ "/" ++ a.lcg_rel ++ "/" ++ a.platform) = true) :
    (start cfg a).result = .error (.valueError cloudUnsupportedMsg)
    ∧ (start cfg a).trace.all (fun e => !isClusterAuthSubproc e) = true := by
  have hkb : (a.cluster == "k8s") = true := beq_iff_eq.mpr hk
  have hdev' : containsSub ['d', 'e', 'v'] a.lcg_rel.data = false := hdev
  unfold start credentialPhase
  by_cases hauth : (!cfg.local_home && cfg.auth_script != "") = true
    <;> constructor
    <;> simp [hv, hp, hoff, hkb, hdev', hauth, startFail, isClusterAuthSubproc]

/-- C4 witness: the gate at a concrete non-dev release. -/
theorem C4_policy_gate_fail_fast_witness :
    (start ⟨false, "/srv/auth.sh", "/views", "/srv/initk8s", "/srv/hadoopauth", true, true⟩
        ⟨"alice", "LCG_96", "x86_64", "k8s", 2, "8G", true, (fun _ => true),
         fun _ => "tok", []⟩).result
      = .error (.valueError cloudUnsupportedMsg) :=
  (C4_policy_gate_fail_fast
    ⟨false, "/srv/auth.sh", "/views", "/srv/initk8s", "/srv/hadoopauth", true, true⟩
    ⟨"alice", "LCG_96", "x86_64", "k8s", 2, "8G", true, (fun _ => true), fun _ => "tok", []⟩
    rfl rfl rfl rfl rfl).1

/-- Concrete configuration for the C5 counterexample. -/
def k8sNoDevCfg : StartConfig :=
  ⟨false, "/srv/auth.sh", "/views", "/srv/initk8s", "/srv/hadoopauth", true, true⟩

/-- Concrete arguments for the C5 counterexample: offload to `'k8s'`, the
per-user kube-config file exists, both token files are absent, but the
selected release `LCG_96` is not of the `dev` release family. -/
def k8sNoDevArgs : StartArgs :=
  ⟨"alice", "LCG_96", "x86_64", "k8s", 2, "8G", true,
   (fun p => !(p == "/spark/alice/hadoop.toks" || p == "/spark/alice/webhdfs.toks")),
   fun _ => "tok", []⟩

/-- C5 counterexample: at this input every hypothesis of the claim holds —
offload to `'k8s'`, kube-config present, both token files absent — yet
credential provisioning raises (the cluster policy gate rejects the
non-dev release before tolerating the missing tokens), so the claim's
"completes without raising" is false as stated. -/
theorem C5_counterexample_gate_raises :
    k8sNoDevArgs.cluster = "k8s"
    ∧ k8sNoDevArgs.offload = true
    ∧ k8sNoDevArgs.fs ("/spark/" ++ k8sNoDevArgs.username ++ "/k8s-user.config") = true
    ∧ k8sNoDevArgs.fs ("/spark/" ++ k8sNoDevArgs.username ++ "/hadoop.toks") = false
    ∧ k8sNoDevArgs.fs ("/spark/" ++ k8sNoDevArgs.username ++ "/webhdfs.toks") = false
    ∧ (credentialPhase k8sNoDevCfg k8sNoDevArgs []).result
        = .error (.valueError cloudUnsupportedMsg) :=
  ⟨rfl, rfl, rfl, rfl, rfl, rfl⟩

/-- C5 (amended: restricted to sessions whose selected release is of the
required `dev` family, which the cluster policy gate otherwise rejects):
for a start with offload to `'k8s'` where the per-user kube-config file
exists and the hadoop and web-storage token files are absent, credential
provisioning completes without raising and the resulting environment
contains neither the `HADOOP_TOKEN_FILE_LOCATION` entry nor the
`WEBHDFS_TOKEN` entry. -/
theorem C5_k8s_tolerant_no_token_entries (cfg : StartConfig) (a : StartArgs) (env : Env)
    (hk : a.cluster = "k8s")
    (hdev : containsSub "dev".toList a.lcg_rel.toList = true)
    (hkc : a.fs ("/spark/" ++ a.username ++ "/k8s-user.config") = true)
    (ht1 : a.fs ("/spark/" ++ a.username ++ "/hadoop.toks") = false)
    (_ht2 : a.fs ("/spark/" ++ a.username ++ "/webhdfs.toks") = false) :
    (credentialPhase cfg a env).result = .ok ()
    ∧ envGet (credentialPhase cfg a env).env "HADOOP_TOKEN_FILE_LOCATION" = none
    ∧ envGet (credentialPhase cfg a env).env "WEBHDFS_TOKEN" = none := by
  have hkb : (a.cluster == "k8s") = true := beq_iff_eq.mpr hk
  have hdev' : containsSub ['d', 'e', 'v'] a.lcg_rel.data = true := hdev
  have hnxb : (a.cluster == "nxcals") = false := by rw [hk]; rfl
  unfold credentialPhase
  simp only [hkb, hdev, hdev', hkc, ht1, hnxb]
  simp only [Bool.not_true, Bool.and_false, Bool.true_and, Bool.false_eq_true,
    if_false, if_true, ite_true, ite_false, Bool.false_and]
  refine ⟨by trivial, ?_, ?_⟩
  · rw [envGet_set_ne _ _ _ _ (by decide), envGet_set_ne _ _ _ _ (by decide),
      envGet_pop_ne _ _ _ (by decide)]
    exact envGet_pop_self _ _
  · rw [envGet_set_ne _ _ _ _ (by decide), envGet_set_ne _ _ _ _ (by decide),
      envGet_pop_ne _ _ _ (by decide), envGet_pop_ne _ _ _ (by decide)]
    exact envGet_pop_self _ _

/-- C5 witness for the amended claim: the tolerant path at a concrete
`dev`-family release. -/
theorem C5_k8s_tolerant_no_token_entries_witness :
    (credentialPhase k8sNoDevCfg
        ⟨"alice", "LCG-dev3", "x86_64", "k8s", 2, "8G", true, k8sNoDevArgs.fs,
         fun _ => "tok", [("WEBHDFS_TOKEN", "stale")]⟩
        [("WEBHDFS_TOKEN", "stale")]).result = .ok ()
    ∧ envGet (credentialPhase k8sNoDevCfg
        ⟨"alice", "LCG-dev3", "x86_64", "k8s", 2, "8G", true, k8sNoDevArgs.fs,
         fun _ => "tok", [("WEBHDFS_TOKEN", "stale")]⟩
        [("WEBHDFS_TOKEN", "stale")]).env "HADOOP_TOKEN_FILE_LOCATION" = none :=
  ⟨(C5_k8s_tolerant_no_token_entries k8sNoDevCfg
      ⟨"alice", "LCG-dev3", "x86_64", "k8s", 2, "8G", true, k8sNoDevArgs.fs,
       fun _ => "tok", [("WEBHDFS_TOKEN", "stale")]⟩
      [("WEBHDFS_TOKEN", "stale")] rfl rfl rfl rfl rfl).1,
   (C5_k8s_tolerant_no_token_entries k8sNoDevCfg
      ⟨"alice", "LCG-dev3", "x86_64", "k8s", 2, "8G", true, k8sNoDevArgs.fs,
       fun _ => "tok", [("WEBHDFS_TOKEN", "stale")]⟩
      [("WEBHDFS_TOKEN", "stale")] rfl rfl rfl rfl rfl).2.1⟩

/-- Configuration of a fully valid non-offload start: local home (no auth
helper), existing stack paths, metrics on, non-Docker backend. -/
def happyCfg : StartConfig :=
  ⟨true, "", "/cvmfs/sft.cern.ch/lcg/views", "", "", true, false⟩

/-- Arguments of a fully valid non-offload start. -/
def happyArgs : StartArgs :=
  ⟨"alice", "LCG_96", "x86_64", "none", 2, "8G", false, (fun _ => true), fun _ => "", []⟩

/-- C1 (contradicted by the code): on a start where every provisioning
step and validation succeeds, the success metric is emitted, but the
method then evaluates `return startup` — `startup` is bound nowhere in
the module — so instead of completing normally and handing control to the
backend launch, it raises `NameError`, which the handler tags with a
failure metric and re-raises. -/
theorem C1_success_path_raises_NameError :
    (start happyCfg happyArgs).trace
      = [Event.userMetrics, Event.startExcMetric "None", Event.startExcMetric "NameError"]
    ∧ (start happyCfg happyArgs).result = .error (.nameError "startup") :=
  ⟨rfl, rfl⟩

end Swan
